import Mathlib

/-!
Verification development for the Coral8 labor-reward, balance-decay, voting
and storage logic.  The embedding covers:

* client/src/lib/labor-index.ts : LABOR_INDEX, getLaborMultiplier,
  calculateCOWTokens;
* server/storage.ts : the MemStorage accessors used by the routes
  (getTokenBalance, updateTokenBalance, getUserStats, updateUserStats,
  createLaborLog, getUserVote, createVote, getProposal, updateProposalVotes);
* server/routes.ts : the POST /api/labor-logs, POST /api/proposals/:id/vote,
  POST /api/decay, GET /api/balances and GET /api/stats handlers.

Numbers are modelled as rationals.  JS Math.round(x) is floor(x + 1/2)
(round half toward positive infinity).  Timestamps (Date.getTime()) are
rational milliseconds since the epoch.
-/

namespace Coral8

/-- JS Math.round over the rational model: round half toward positive
infinity, as Math.round does. -/
def jsRound (x : ℚ) : ℤ := ⌊x + 1/2⌋

/-- JS Math.pow over the rational model.  The handlers only raise the decay
base to exponents computed from timestamps; a non-integer exponent would give
an irrational power, which has no exact rational value, so the model reads
the integer part of the exponent and the decay theorems carry the hypothesis
that the exponent is an integer. -/
def mathPow (b e : ℚ) : ℚ := b ^ e.num

/-- The LABOR_INDEX table from labor-index.ts, in source order. -/
def LABOR_INDEX : List (String × ℚ) := [
  ("Art Creation", 18/10),
  ("Care Work", 20/10),
  ("Teaching", 19/10),
  ("Community Building", 17/10),
  ("Cultural Preservation", 21/10),
  ("Environmental Work", 16/10),
  ("Healing & Wellness", 18/10),
  ("Traditional Crafts", 19/10),
  ("Storytelling", 17/10),
  ("Food Preparation", 15/10)]

/-- getLaborMultiplier from labor-index.ts:
LABOR_INDEX[laborType] || 1.0.  No table value is falsy (none is 0), so the
JS || default fires exactly when the key is absent. -/
def getLaborMultiplier (laborType : String) : ℚ :=
  match LABOR_INDEX.find? (fun p => p.1 == laborType) with
  | some p => p.2
  | none => 1

/-- calculateCOWTokens from labor-index.ts:
Math.round((hoursWorked * baseRate * multiplier) * 100) / 100 with
baseRate = 11. -/
def calculateCOWTokens (hoursWorked multiplier : ℚ) : ℚ :=
  let baseRate : ℚ := 11
  (jsRound (hoursWorked * baseRate * multiplier * 100) : ℚ) / 100

/-- Rounding to two decimal places, worded as in the specification
(round(x, 2)); used to compare the source formula against the spec text. -/
def specRound2 (x : ℚ) : ℚ := ((⌊x * 100 + 1/2⌋ : ℤ) : ℚ) / 100

/-! ### Data model (shared/schema.ts rows, fields the routes touch) -/

/-- A tokenBalances row.  Balances are stored as strings in the source and
re-parsed with parseFloat at every use; the round trip is the identity in
the rational model.  lastActive is a timestamp in milliseconds. -/
structure TokenBalance where
  cow1Balance : ℚ
  cow2Balance : ℚ
  cow3Balance : ℚ
  lastActive : ℚ
deriving DecidableEq, Repr

/-- A userStats row (the two fields the labor-log route reads and writes). -/
structure UserStats where
  focusScore : ℤ
  monthlyEarnings : ℚ
deriving DecidableEq, Repr

/-- A laborLogs row as created by the POST /api/labor-logs handler. -/
structure LaborLog where
  userId : String
  laborType : String
  hoursWorked : ℚ
  cowTokensEarned : ℚ
  multiplier : ℚ
deriving DecidableEq, Repr

/-- A governanceProposals row (fields the vote route touches). -/
structure GovernanceProposal where
  title : String
  status : String
  votesYes : ℤ
  votesNo : ℤ
deriving DecidableEq, Repr

/-- A votes row. -/
structure Vote where
  userId : String
  proposalId : String
  vote : Bool
deriving DecidableEq, Repr

/-- The MemStorage state.  tokenBalances, userStats and proposals are maps
keyed by userId resp. proposal id (JS Map semantics as finite partial
functions); laborLogs and votes are keyed by fresh UUIDs and only ever
scanned or appended, so they are kept as lists in insertion order. -/
structure Storage where
  tokenBalances : String → Option TokenBalance
  userStats : String → Option UserStats
  laborLogs : List LaborLog
  proposals : String → Option GovernanceProposal
  votes : List Vote

/-! ### MemStorage accessors (server/storage.ts) -/

/-- MemStorage.getTokenBalance. -/
def Storage.getTokenBalance (s : Storage) (userId : String) : Option TokenBalance :=
  s.tokenBalances userId

/-- MemStorage.getUserStats. -/
def Storage.getUserStats (s : Storage) (userId : String) : Option UserStats :=
  s.userStats userId

/-- MemStorage.getProposal. -/
def Storage.getProposal (s : Storage) (id : String) : Option GovernanceProposal :=
  s.proposals id

/-- MemStorage.getUserVote: scan of the votes map for a matching
(userId, proposalId) pair. -/
def Storage.getUserVote (s : Storage) (userId proposalId : String) : Option Vote :=
  s.votes.find? (fun v => v.userId == userId && v.proposalId == proposalId)

/-- MemStorage.createLaborLog: insert under a fresh UUID. -/
def Storage.createLaborLog (s : Storage) (log : LaborLog) : Storage :=
  { s with laborLogs := s.laborLogs ++ [log] }

/-- MemStorage.createVote: insert under a fresh UUID. -/
def Storage.createVote (s : Storage) (v : Vote) : Storage :=
  { s with votes := s.votes ++ [v] }

/-- MemStorage.updateTokenBalance: merge the supplied partial update into
the stored row ({ ...existing, ...updates }).  The source throws when the
row is absent; every route call site is guarded by a getTokenBalance check,
so the absent case is unreachable from the embedded handlers and the model
leaves the map unchanged there. -/
def Storage.updateTokenBalance (s : Storage) (userId : String)
    (upd : TokenBalance → TokenBalance) : Storage :=
  { s with tokenBalances := fun u =>
      if u = userId then (s.tokenBalances u).map upd else s.tokenBalances u }

/-- MemStorage.updateUserStats: merge the supplied partial update into the
stored row.  The source creates a default row when none exists, but the
labor-log route only calls it after a successful getUserStats, so the
create branch is unreachable from the embedded handlers. -/
def Storage.updateUserStats (s : Storage) (userId : String)
    (upd : UserStats → UserStats) : Storage :=
  { s with userStats := fun u =>
      if u = userId then (s.userStats u).map upd else s.userStats u }

/-- MemStorage.updateProposalVotes: overwrite the two counters of the
stored proposal, leaving the map unchanged when the id is absent
(the source guards with if (proposal)). -/
def Storage.updateProposalVotes (s : Storage) (proposalId : String)
    (votesYes votesNo : ℤ) : Storage :=
  { s with proposals := fun p =>
      if p = proposalId then
        (s.proposals p).map (fun pr => { pr with votesYes := votesYes, votesNo := votesNo })
      else s.proposals p }

/-! ### Route handlers (server/routes.ts) -/

/-- A labor-log request after insertLaborLogSchema.parse.  The server-side
zod schema (shared/schema.ts insertLaborLogSchema) omits the derived fields
and validates only the shape: laborType and hoursWorked must be strings.
Any numeric string passes; the value below is parseFloat of it.  No range
constraint is checked server-side. -/
structure LaborLogRequest where
  laborType : String
  hoursWorked : ℚ
deriving DecidableEq, Repr

/-- Result of the POST /api/labor-logs handler: HTTP status, the created
LaborLog from the response body, and the storage state afterwards. -/
structure LaborLogResult where
  status : ℕ
  log : Option LaborLog
  state : Storage

/-- The POST /api/labor-logs handler (routes.ts): derive multiplier and
cowTokensEarned server-side, create the log, then add the tokens to
cow1Balance and refresh lastActive when a balance row exists, and bump
monthlyEarnings and focusScore when a stats row exists.  now is the
timestamp new Date() in milliseconds. -/
def postLaborLogs (s : Storage) (req : LaborLogRequest) (now : ℚ) : LaborLogResult :=
  let multiplier := getLaborMultiplier req.laborType
  let hoursWorked := req.hoursWorked
  let cowTokensEarned := calculateCOWTokens hoursWorked multiplier
  let laborLog : LaborLog :=
    { userId := "default-user", laborType := req.laborType,
      hoursWorked := hoursWorked, cowTokensEarned := cowTokensEarned,
      multiplier := multiplier }
  let s1 := s.createLaborLog laborLog
  let s2 :=
    match s1.getTokenBalance "default-user" with
    | some currentBalance =>
        s1.updateTokenBalance "default-user" (fun b =>
          { b with cow1Balance := currentBalance.cow1Balance + cowTokensEarned,
                   lastActive := now })
    | none => s1
  let s3 :=
    match s2.getUserStats "default-user" with
    | some currentStats =>
        s2.updateUserStats "default-user" (fun st =>
          { st with monthlyEarnings := currentStats.monthlyEarnings + cowTokensEarned,
                    focusScore := min (currentStats.focusScore + 1) 10 })
    | none => s2
  { status := 200, log := some laborLog, state := s3 }

/-- Result of the POST /api/proposals/:id/vote handler. -/
structure VoteResult where
  status : ℕ
  message : String
  state : Storage

/-- The POST /api/proposals/:id/vote handler (routes.ts).  The vote body
field is typed Bool here, so the typeof vote !== "boolean" 400 branch of the
source is outside the model.  A duplicate vote is rejected with 400; an
accepted vote is inserted, and the tallies are overwritten when the
proposal exists (no lookup failure branch: the source guards the tally
update with if (proposal) and still answers success). -/
def postProposalVote (s : Storage) (proposalId : String) (vote : Bool) : VoteResult :=
  match s.getUserVote "default-user" proposalId with
  | some _ =>
      { status := 400, message := "User has already voted on this proposal", state := s }
  | none =>
      let s1 := s.createVote { userId := "default-user", proposalId := proposalId, vote := vote }
      let s2 :=
        match s1.getProposal proposalId with
        | some proposal =>
            s1.updateProposalVotes proposalId
              (if vote then proposal.votesYes + 1 else proposal.votesYes)
              (if vote then proposal.votesNo else proposal.votesNo + 1)
        | none => s1
      { status := 200, message := "Vote recorded successfully", state := s2 }

/-- Result of the POST /api/decay handler. -/
structure DecayResult where
  status : ℕ
  message : String
  decayFactor : Option ℚ
  state : Storage

/-- The POST /api/decay handler (routes.ts): 404 when no balance row;
otherwise compute hoursSinceActive from lastActive, and when it exceeds 24
multiply the three balances by 0.99 ^ (hoursSinceActive - 24) and persist
them.  The update does not touch lastActive. -/
def postDecay (s : Storage) (now : ℚ) : DecayResult :=
  match s.getTokenBalance "default-user" with
  | none =>
      { status := 404, message := "Balance not found", decayFactor := none, state := s }
  | some balance =>
      let hoursSinceActive := (now - balance.lastActive) / (1000 * 60 * 60)
      if hoursSinceActive > 24 then
        let decayRate : ℚ := 1/100
        let hoursOfDecay := hoursSinceActive - 24
        let decayFactor := mathPow (1 - decayRate) hoursOfDecay
        let s1 := s.updateTokenBalance "default-user" (fun b =>
          { b with cow1Balance := balance.cow1Balance * decayFactor,
                   cow2Balance := balance.cow2Balance * decayFactor,
                   cow3Balance := balance.cow3Balance * decayFactor })
        { status := 200, message := "Decay applied", decayFactor := some decayFactor,
          state := s1 }
      else
        { status := 200, message := "No decay applied - user recently active",
          decayFactor := none, state := s }

/-- The GET /api/balances handler: status and body. -/
def getBalancesRoute (s : Storage) : ℕ × Option TokenBalance :=
  match s.getTokenBalance "default-user" with
  | none => (404, none)
  | some b => (200, some b)

/-- The GET /api/stats handler: status and body. -/
def getStatsRoute (s : Storage) : ℕ × Option UserStats :=
  match s.getUserStats "default-user" with
  | none => (404, none)
  | some st => (200, some st)

/-! ### Helper lemmas -/

/-- Table lookup for the Teaching row. -/
lemma getLaborMultiplier_teaching : getLaborMultiplier "Teaching" = 19/10 := by
  rfl

/-- Table lookup for the Care Work row. -/
lemma getLaborMultiplier_careWork : getLaborMultiplier "Care Work" = 20/10 := by
  rfl

/-! ### Claims -/

/-- C1: calculateCOWTokens(hoursWorked, multiplier) equals
hoursWorked x 11 x multiplier rounded to two decimal places, for all
rational inputs, and calculateCOWTokens(3, getLaborMultiplier("Care Work"))
is 66. -/
theorem C1_calculateCOWTokens_formula :
    (∀ h m : ℚ, calculateCOWTokens h m = specRound2 (h * 11 * m)) ∧
    calculateCOWTokens 3 (getLaborMultiplier "Care Work") = 66 := by
  constructor
  · intro h m
    rfl
  · rw [getLaborMultiplier_careWork]
    norm_num [calculateCOWTokens, jsRound]

/-- C3: getLaborMultiplier returns the literal table value for each of the
ten listed categories and 1 for every string absent from the table; the
lookup is total over all strings. -/
theorem C3_labor_index_total_lookup :
    getLaborMultiplier "Art Creation" = 18/10 ∧
    getLaborMultiplier "Care Work" = 20/10 ∧
    getLaborMultiplier "Teaching" = 19/10 ∧
    getLaborMultiplier "Community Building" = 17/10 ∧
    getLaborMultiplier "Cultural Preservation" = 21/10 ∧
    getLaborMultiplier "Environmental Work" = 16/10 ∧
    getLaborMultiplier "Healing & Wellness" = 18/10 ∧
    getLaborMultiplier "Traditional Crafts" = 19/10 ∧
    getLaborMultiplier "Storytelling" = 17/10 ∧
    getLaborMultiplier "Food Preparation" = 15/10 ∧
    ∀ t : String, t ∉ LABOR_INDEX.map Prod.fst → getLaborMultiplier t = 1 := by
  refine ⟨rfl, rfl, rfl, rfl, rfl, rfl, rfl, rfl, rfl, rfl, ?_⟩
  intro t ht
  unfold getLaborMultiplier
  cases hfind : LABOR_INDEX.find? (fun p => p.1 == t) with
  | none => rfl
  | some p =>
      exfalso
      have hp := List.find?_some hfind
      have hmem : p ∈ LABOR_INDEX := List.mem_of_find?_eq_some hfind
      have hpt : p.1 = t := by simpa using hp
      exact ht (hpt ▸ List.mem_map_of_mem Prod.fst hmem)

/-- C3 witness: the lookup of a string outside the table yields 1. -/
theorem C3_labor_index_total_lookup_witness :
    "Quantum Plumbing" ∉ LABOR_INDEX.map Prod.fst ∧
    getLaborMultiplier "Quantum Plumbing" = 1 :=
  ⟨by decide,
   C3_labor_index_total_lookup.2.2.2.2.2.2.2.2.2.2 "Quantum Plumbing" (by decide)⟩

/-- C9: calculateCOWTokens is monotone in hoursWorked for a fixed
nonnegative multiplier and monotone in the multiplier for fixed nonnegative
hoursWorked, every result is an integer number of hundredths, and
calculateCOWTokens 2 2.1 is 46.2. -/
theorem C9_reward_monotone_two_decimals :
    (∀ m h₁ h₂ : ℚ, 0 ≤ m → h₁ ≤ h₂ →
      calculateCOWTokens h₁ m ≤ calculateCOWTokens h₂ m) ∧
    (∀ h m₁ m₂ : ℚ, 0 ≤ h → m₁ ≤ m₂ →
      calculateCOWTokens h m₁ ≤ calculateCOWTokens h m₂) ∧
    (∀ h m : ℚ, ∃ k : ℤ, calculateCOWTokens h m = (k : ℚ) / 100) ∧
    calculateCOWTokens 2 (21/10) = 462/10 := by
  refine ⟨?_, ?_, ?_, ?_⟩
  · intro m h₁ h₂ hm hh
    unfold calculateCOWTokens jsRound
    have key : h₁ * 11 * m * 100 ≤ h₂ * 11 * m * 100 := by
      have h11 : h₁ * 11 ≤ h₂ * 11 := mul_le_mul_of_nonneg_right hh (by norm_num)
      have hm2 : h₁ * 11 * m ≤ h₂ * 11 * m := mul_le_mul_of_nonneg_right h11 hm
      exact mul_le_mul_of_nonneg_right hm2 (by norm_num)
    have hfl : ⌊h₁ * 11 * m * 100 + 1/2⌋ ≤ ⌊h₂ * 11 * m * 100 + 1/2⌋ :=
      Int.floor_le_floor (add_le_add_right key _)
    exact (div_le_div_iff_of_pos_right (by norm_num)).mpr (by exact_mod_cast hfl)
  · intro h m₁ m₂ hh hm
    unfold calculateCOWTokens jsRound
    have key : h * 11 * m₁ * 100 ≤ h * 11 * m₂ * 100 := by
      have h11 : (0:ℚ) ≤ h * 11 := mul_nonneg hh (by norm_num)
      have hm2 : h * 11 * m₁ ≤ h * 11 * m₂ := mul_le_mul_of_nonneg_left hm h11
      exact mul_le_mul_of_nonneg_right hm2 (by norm_num)
    have hfl : ⌊h * 11 * m₁ * 100 + 1/2⌋ ≤ ⌊h * 11 * m₂ * 100 + 1/2⌋ :=
      Int.floor_le_floor (add_le_add_right key _)
    exact (div_le_div_iff_of_pos_right (by norm_num)).mpr (by exact_mod_cast hfl)
  · intro h m
    exact ⟨jsRound (h * 11 * m * 100), rfl⟩
  · norm_num [calculateCOWTokens, jsRound]

/-- Shared decay fact: with a stored balance and hoursSinceActive at most
24, the handler is a no-op on the state. -/
lemma postDecay_noop (s : Storage) (now : ℚ) (b : TokenBalance)
    (hb : s.getTokenBalance "default-user" = some b)
    (hle : (now - b.lastActive) / (1000 * 60 * 60) ≤ 24) :
    (postDecay s now).state = s ∧ (postDecay s now).decayFactor = none := by
  simp only [postDecay, hb]
  rw [if_neg (not_lt.mpr hle)]
  exact ⟨rfl, rfl⟩

/-- Shared decay fact: with a stored balance and an integer number k > 0 of
decay hours, the handler multiplies the three balances by 0.99 ^ k, keeps
lastActive, and reports the factor. -/
lemma postDecay_applied (s : Storage) (now : ℚ) (b : TokenBalance) (k : ℤ)
    (hb : s.getTokenBalance "default-user" = some b)
    (hk : 0 < k)
    (hke : (now - b.lastActive) / (1000 * 60 * 60) - 24 = (k : ℚ)) :
    (postDecay s now).state.tokenBalances "default-user" =
      some { b with cow1Balance := b.cow1Balance * (1 - 1/100) ^ k,
                    cow2Balance := b.cow2Balance * (1 - 1/100) ^ k,
                    cow3Balance := b.cow3Balance * (1 - 1/100) ^ k } ∧
    (postDecay s now).decayFactor = some ((1 - 1/100 : ℚ) ^ k) ∧
    (postDecay s now).status = 200 := by
  have hkq : (0:ℚ) < (k : ℚ) := by exact_mod_cast hk
  have h24 : (now - b.lastActive) / (1000 * 60 * 60) > 24 := by linarith
  have hexp : mathPow (1 - 1/100) ((now - b.lastActive) / (1000 * 60 * 60) - 24)
      = (1 - 1/100 : ℚ) ^ k := by
    rw [hke]
    simp [mathPow, Rat.num_intCast]
  simp only [postDecay, hb]
  rw [if_pos h24]
  refine ⟨?_, ?_, rfl⟩
  · simp only [Storage.updateTokenBalance, Storage.getTokenBalance] at hb ⊢
    simp [hb]
    refine ⟨Or.inl ?_, Or.inl ?_, Or.inl ?_⟩ <;>
      (rw [hke]; simp [mathPow, Rat.num_intCast])
  · simp only [hexp]

/-- C2: with a stored balance, the decay route leaves the state unchanged
when hoursInactive is at most 24; when hoursInactive exceeds 24 by an
integer k of decay hours, it multiplies each of the three balances by
(1 - 0.01) ^ k and persists them, and the stored lastActive is unchanged
(the persisted row keeps the lastActive of b). -/
theorem C2_decay_endpoint (s : Storage) (now : ℚ) (b : TokenBalance)
    (hb : s.getTokenBalance "default-user" = some b) :
    ((now - b.lastActive) / (1000 * 60 * 60) ≤ 24 → (postDecay s now).state = s) ∧
    (∀ k : ℤ, 0 < k → (now - b.lastActive) / (1000 * 60 * 60) - 24 = (k : ℚ) →
      (postDecay s now).state.tokenBalances "default-user" =
        some { b with cow1Balance := b.cow1Balance * (1 - 1/100) ^ k,
                      cow2Balance := b.cow2Balance * (1 - 1/100) ^ k,
                      cow3Balance := b.cow3Balance * (1 - 1/100) ^ k } ∧
      (postDecay s now).decayFactor = some ((1 - 1/100 : ℚ) ^ k)) :=
  ⟨fun hle => (postDecay_noop s now b hb hle).1,
   fun k hk hke => ⟨(postDecay_applied s now b k hb hk hke).1,
                    (postDecay_applied s now b k hb hk hke).2.1⟩⟩

/-- Balance row used to exercise the decay route. -/
def decayDemoBalance : TokenBalance :=
  { cow1Balance := 100, cow2Balance := 50, cow3Balance := 25, lastActive := 0 }

/-- Storage holding only decayDemoBalance for the default user. -/
def decayDemoStorage : Storage :=
  { tokenBalances := fun u => if u = "default-user" then some decayDemoBalance else none,
    userStats := fun _ => none, laborLogs := [], proposals := fun _ => none, votes := [] }

/-- C2 witness: 10 hours of inactivity leave the state unchanged; 30 hours
of inactivity report the factor 0.99 ^ 6. -/
theorem C2_decay_endpoint_witness :
    decayDemoStorage.getTokenBalance "default-user" = some decayDemoBalance ∧
    (postDecay decayDemoStorage (10 * 3600000)).state = decayDemoStorage ∧
    (postDecay decayDemoStorage (30 * 3600000)).decayFactor = some ((1 - 1/100 : ℚ) ^ (6:ℤ)) :=
  ⟨rfl,
   (C2_decay_endpoint decayDemoStorage (10 * 3600000) decayDemoBalance rfl).1
     (by norm_num [decayDemoBalance]),
   ((C2_decay_endpoint decayDemoStorage (30 * 3600000) decayDemoBalance rfl).2 6
     (by norm_num) (by norm_num [decayDemoBalance])).2⟩

/-- C9 witness: the monotonicity statements applied at concrete inputs. -/
theorem C9_reward_monotone_two_decimals_witness :
    ((0:ℚ) ≤ 2 ∧ (1:ℚ) ≤ 3 ∧ calculateCOWTokens 1 2 ≤ calculateCOWTokens 3 2) ∧
    ((0:ℚ) ≤ 4 ∧ (1:ℚ) ≤ 2 ∧ calculateCOWTokens 4 1 ≤ calculateCOWTokens 4 2) :=
  ⟨⟨by norm_num, by norm_num,
    C9_reward_monotone_two_decimals.1 2 1 3 (by norm_num) (by norm_num)⟩,
   ⟨by norm_num, by norm_num,
    C9_reward_monotone_two_decimals.2.1 4 1 2 (by norm_num) (by norm_num)⟩⟩

/-- Reward computation for 5 hours at the Teaching multiplier. -/
lemma calculateCOWTokens_5_teaching : calculateCOWTokens 5 (19/10) = 1045/10 := by
  norm_num [calculateCOWTokens, jsRound]

/-- Reward computation for 30 hours at the Teaching multiplier. -/
lemma calculateCOWTokens_30_teaching : calculateCOWTokens 30 (19/10) = 627 := by
  norm_num [calculateCOWTokens, jsRound]

/-- Storage whose only row is a zeroed balance for the default user. -/
def laborDemoStorage : Storage :=
  { tokenBalances := fun u =>
      if u = "default-user" then
        some { cow1Balance := 0, cow2Balance := 0, cow3Balance := 0, lastActive := 0 }
      else none,
    userStats := fun _ => none, laborLogs := [], proposals := fun _ => none, votes := [] }

/-- Storage with no rows at all. -/
def emptyStorage : Storage :=
  { tokenBalances := fun _ => none, userStats := fun _ => none, laborLogs := [],
    proposals := fun _ => none, votes := [] }

/-- C4: a labor-log request of 5 hours of Teaching persists a LaborLog with
multiplier 1.9 and cowTokensEarned 104.5, both derived server-side, and the
callers cow1Balance increases by exactly that amount. -/
theorem C4_labor_log_roundtrip (s : Storage) (now : ℚ) (b : TokenBalance)
    (hb : s.getTokenBalance "default-user" = some b) :
    (postLaborLogs s ⟨"Teaching", 5⟩ now).status = 200 ∧
    (postLaborLogs s ⟨"Teaching", 5⟩ now).log =
      some { userId := "default-user", laborType := "Teaching", hoursWorked := 5,
             cowTokensEarned := 1045/10, multiplier := 19/10 } ∧
    (postLaborLogs s ⟨"Teaching", 5⟩ now).state.laborLogs =
      s.laborLogs ++
        [{ userId := "default-user", laborType := "Teaching", hoursWorked := 5,
           cowTokensEarned := 1045/10, multiplier := 19/10 }] ∧
    ∃ b2 : TokenBalance,
      (postLaborLogs s ⟨"Teaching", 5⟩ now).state.tokenBalances "default-user" = some b2 ∧
      b2.cow1Balance = b.cow1Balance + 1045/10 := by
  simp only [Storage.getTokenBalance] at hb
  refine ⟨rfl, ?_, ?_, ?_⟩
  · simp only [postLaborLogs]
    rw [getLaborMultiplier_teaching, calculateCOWTokens_5_teaching]
  · simp only [postLaborLogs, Storage.createLaborLog, Storage.getTokenBalance,
      Storage.updateTokenBalance, Storage.getUserStats, Storage.updateUserStats, hb]
    rw [getLaborMultiplier_teaching, calculateCOWTokens_5_teaching]
    cases hst : s.userStats "default-user" <;> simp [hst]
  · simp only [postLaborLogs, Storage.createLaborLog, Storage.getTokenBalance,
      Storage.updateTokenBalance, Storage.getUserStats, Storage.updateUserStats, hb]
    rw [getLaborMultiplier_teaching, calculateCOWTokens_5_teaching]
    cases hst : s.userStats "default-user" <;>
      exact ⟨{ cow1Balance := b.cow1Balance + 1045/10, cow2Balance := b.cow2Balance,
               cow3Balance := b.cow3Balance, lastActive := now }, by simp [hb], rfl⟩

/-- C4 witness: the round trip on a concrete storage with a zeroed balance. -/
theorem C4_labor_log_roundtrip_witness :
    laborDemoStorage.getTokenBalance "default-user" =
      some { cow1Balance := 0, cow2Balance := 0, cow3Balance := 0, lastActive := 0 } ∧
    (postLaborLogs laborDemoStorage ⟨"Teaching", 5⟩ 7).log =
      some { userId := "default-user", laborType := "Teaching", hoursWorked := 5,
             cowTokensEarned := 1045/10, multiplier := 19/10 } :=
  ⟨rfl, (C4_labor_log_roundtrip laborDemoStorage 7 _ rfl).2.1⟩

/-- C5: a second vote by the same user on the same proposal is rejected
with status 400 and an explicit already-voted message, and the state is
unchanged (no Vote row, no tally change). -/
theorem C5_duplicate_vote_rejected (s : Storage) (proposalId : String) (v : Bool) (w : Vote)
    (hw : s.getUserVote "default-user" proposalId = some w) :
    (postProposalVote s proposalId v).status = 400 ∧
    (postProposalVote s proposalId v).message = "User has already voted on this proposal" ∧
    (postProposalVote s proposalId v).state = s := by
  simp only [postProposalVote, hw]
  refine ⟨?_, ?_, ?_⟩ <;> trivial

/-- Storage holding one proposal and one recorded vote of the default user
on it (mirroring the MemStorage sample data shape). -/
def votedStorage : Storage :=
  { tokenBalances := fun _ => none, userStats := fun _ => none, laborLogs := [],
    proposals := fun p =>
      if p = "proposal-1" then
        some { title := "Increase Labor Index Multiplier for Care Work",
               status := "active", votesYes := 180, votesNo := 54 }
      else none,
    votes := [{ userId := "default-user", proposalId := "proposal-1", vote := true }] }

/-- C5 witness: the duplicate-vote rejection on the concrete storage. -/
theorem C5_duplicate_vote_rejected_witness :
    votedStorage.getUserVote "default-user" "proposal-1" =
      some { userId := "default-user", proposalId := "proposal-1", vote := true } ∧
    (postProposalVote votedStorage "proposal-1" false).status = 400 ∧
    (postProposalVote votedStorage "proposal-1" false).state = votedStorage :=
  ⟨rfl,
   (C5_duplicate_vote_rejected votedStorage "proposal-1" false _ rfl).1,
   (C5_duplicate_vote_rejected votedStorage "proposal-1" false _ rfl).2.2⟩

/-- Storage with three equal positive balances and lastActive 0, for the
decay-twice experiment. -/
def decayTwiceStorage : Storage :=
  { tokenBalances := fun u =>
      if u = "default-user" then
        some { cow1Balance := 100, cow2Balance := 100, cow3Balance := 100, lastActive := 0 }
      else none,
    userStats := fun _ => none, laborLogs := [], proposals := fun _ => none, votes := [] }

/-- C6: the decay route is not idempotent: from a reachable state with
positive balances and 30 hours of inactivity, one call shrinks cow1Balance
below 100, and a second call with no intervening labor log shrinks it
strictly further (108000000 ms is 30 hours). -/
theorem C6_decay_not_idempotent :
    ∃ b1 b2 : TokenBalance,
      (postDecay decayTwiceStorage 108000000).state.tokenBalances "default-user" = some b1 ∧
      (postDecay (postDecay decayTwiceStorage 108000000).state
          108000000).state.tokenBalances "default-user" = some b2 ∧
      b1.cow1Balance < 100 ∧
      b2.cow1Balance < b1.cow1Balance := by
  have hf0 : (0:ℚ) < (1 - 1/100) ^ (6:ℤ) := by positivity
  have hf1 : ((1 - 1/100 : ℚ)) ^ (6:ℤ) < 1 := by norm_num
  have h1 := postDecay_applied decayTwiceStorage 108000000
    { cow1Balance := 100, cow2Balance := 100, cow3Balance := 100, lastActive := 0 }
    6 rfl (by norm_num) (by norm_num)
  have h2 := postDecay_applied (postDecay decayTwiceStorage 108000000).state 108000000
    _ 6 h1.1 (by norm_num) (by norm_num)
  refine ⟨_, _, h1.1, h2.1, ?_, ?_⟩
  · simpa using by nlinarith [hf0, hf1]
  · simp only []
    nlinarith [hf0, hf1]

/-- C7 counterexample: hoursWorked 30 is outside (0, 24], yet the request
is answered with 200, not 400, and a LaborLog is persisted for it. -/
theorem C7_out_of_range_counterexample :
    (postLaborLogs laborDemoStorage ⟨"Teaching", 30⟩ 0).status = 200 ∧
    (postLaborLogs laborDemoStorage ⟨"Teaching", 30⟩ 0).status ≠ 400 ∧
    (postLaborLogs laborDemoStorage ⟨"Teaching", 30⟩ 0).state.laborLogs =
      [{ userId := "default-user", laborType := "Teaching", hoursWorked := 30,
         cowTokensEarned := 627, multiplier := 19/10 }] := by
  refine ⟨rfl, by decide, ?_⟩
  simp only [postLaborLogs, Storage.createLaborLog, Storage.getTokenBalance,
    Storage.updateTokenBalance, Storage.getUserStats, Storage.updateUserStats,
    laborDemoStorage]
  rw [getLaborMultiplier_teaching, calculateCOWTokens_30_teaching]
  simp

/-- C7 amended: the server applies no range validation to hoursWorked:
every shape-valid request is accepted with 200, the LaborLog is created
from the supplied value, whatever it is, and appended to the log list. -/
theorem C7_no_range_validation (s : Storage) (req : LaborLogRequest) (now : ℚ) :
    (postLaborLogs s req now).status = 200 ∧
    (postLaborLogs s req now).log =
      some { userId := "default-user", laborType := req.laborType,
             hoursWorked := req.hoursWorked,
             cowTokensEarned :=
               calculateCOWTokens req.hoursWorked (getLaborMultiplier req.laborType),
             multiplier := getLaborMultiplier req.laborType } ∧
    (postLaborLogs s req now).state.laborLogs =
      s.laborLogs ++
        [{ userId := "default-user", laborType := req.laborType,
           hoursWorked := req.hoursWorked,
           cowTokensEarned :=
             calculateCOWTokens req.hoursWorked (getLaborMultiplier req.laborType),
           multiplier := getLaborMultiplier req.laborType }] := by
  refine ⟨rfl, rfl, ?_⟩
  simp only [postLaborLogs, Storage.createLaborLog, Storage.getTokenBalance,
    Storage.updateTokenBalance, Storage.getUserStats, Storage.updateUserStats]
  cases hbal : s.tokenBalances "default-user" <;>
    cases hst : s.userStats "default-user" <;> simp [hbal, hst]

/-- C8 counterexample: voting on an absent proposal does not yield 404;
the handler records the vote and answers 200. -/
theorem C8_vote_missing_proposal_counterexample :
    emptyStorage.getProposal "proposal-404" = none ∧
    (postProposalVote emptyStorage "proposal-404" true).status = 200 ∧
    (postProposalVote emptyStorage "proposal-404" true).status ≠ 404 :=
  ⟨rfl, rfl, by decide⟩

/-- C8 amended: GET balances and GET stats answer 404 when the row is
absent; voting on an absent proposal is not a 404: the Vote row is inserted,
the proposals map is untouched, and the handler answers 200. -/
theorem C8_not_found_amended :
    (∀ s : Storage, s.getTokenBalance "default-user" = none →
      (getBalancesRoute s).1 = 404) ∧
    (∀ s : Storage, s.getUserStats "default-user" = none →
      (getStatsRoute s).1 = 404) ∧
    (∀ (s : Storage) (pid : String) (v : Bool),
      s.getUserVote "default-user" pid = none →
      s.getProposal pid = none →
      (postProposalVote s pid v).status = 200 ∧
      (postProposalVote s pid v).state.votes =
        s.votes ++ [{ userId := "default-user", proposalId := pid, vote := v }] ∧
      (postProposalVote s pid v).state.proposals = s.proposals) := by
  refine ⟨?_, ?_, ?_⟩
  · intro s h
    simp only [getBalancesRoute, h]
  · intro s h
    simp only [getStatsRoute, h]
  · intro s pid v hv hp
    simp only [Storage.getProposal] at hp
    simp only [postProposalVote, hv, Storage.createVote, Storage.getProposal, hp]
    refine ⟨?_, ?_, ?_⟩ <;> trivial

/-- C8 witness: the 404 routes on the empty storage, and the success path
of a vote on an absent proposal. -/
theorem C8_not_found_amended_witness :
    (getBalancesRoute emptyStorage).1 = 404 ∧
    (getStatsRoute emptyStorage).1 = 404 ∧
    (postProposalVote emptyStorage "proposal-404" true).state.votes =
      [{ userId := "default-user", proposalId := "proposal-404", vote := true }] := by
  refine ⟨C8_not_found_amended.1 emptyStorage rfl,
          C8_not_found_amended.2.1 emptyStorage rfl, ?_⟩
  have h := (C8_not_found_amended.2.2 emptyStorage "proposal-404" true rfl rfl).2.1
  simpa [emptyStorage] using h

/-- C10: with neither a balance row nor a stats row, a labor-log request
still succeeds: the LaborLog is created and returned, while the balance and
stats maps are untouched (no row created, no tokens credited). -/
theorem C10_labor_log_without_rows (s : Storage) (req : LaborLogRequest) (now : ℚ)
    (hb : s.getTokenBalance "default-user" = none)
    (hst : s.getUserStats "default-user" = none) :
    (postLaborLogs s req now).status = 200 ∧
    (postLaborLogs s req now).log =
      some { userId := "default-user", laborType := req.laborType,
             hoursWorked := req.hoursWorked,
             cowTokensEarned :=
               calculateCOWTokens req.hoursWorked (getLaborMultiplier req.laborType),
             multiplier := getLaborMultiplier req.laborType } ∧
    (postLaborLogs s req now).state.laborLogs =
      s.laborLogs ++
        [{ userId := "default-user", laborType := req.laborType,
           hoursWorked := req.hoursWorked,
           cowTokensEarned :=
             calculateCOWTokens req.hoursWorked (getLaborMultiplier req.laborType),
           multiplier := getLaborMultiplier req.laborType }] ∧
    (postLaborLogs s req now).state.tokenBalances = s.tokenBalances ∧
    (postLaborLogs s req now).state.userStats = s.userStats := by
  simp only [Storage.getTokenBalance] at hb
  simp only [Storage.getUserStats] at hst
  refine ⟨rfl, rfl, ?_, ?_, ?_⟩ <;>
    simp [postLaborLogs, Storage.createLaborLog, Storage.getTokenBalance,
      Storage.getUserStats, hb, hst]

/-- C10 witness: the no-balance no-stats path on the empty storage. -/
theorem C10_labor_log_without_rows_witness :
    (postLaborLogs emptyStorage ⟨"Care Work", 3⟩ 0).status = 200 ∧
    (postLaborLogs emptyStorage ⟨"Care Work", 3⟩ 0).state.tokenBalances =
      emptyStorage.tokenBalances ∧
    (postLaborLogs emptyStorage ⟨"Care Work", 3⟩ 0).state.userStats =
      emptyStorage.userStats :=
  ⟨(C10_labor_log_without_rows emptyStorage ⟨"Care Work", 3⟩ 0 rfl rfl).1,
   (C10_labor_log_without_rows emptyStorage ⟨"Care Work", 3⟩ 0 rfl rfl).2.2.2.1,
   (C10_labor_log_without_rows emptyStorage ⟨"Care Work", 3⟩ 0 rfl rfl).2.2.2.2⟩

end Coral8
